import Mathlib

/-!
Verification development for the renderizr/confd reconciliation engine.

Shallow embedding of:
- `pkg/config` : `TemplateConfig` and its defaults,
- `pkg/core/global.go` : `Template.Render` / `getExpectedFileMode` /
  `setKVs` / `createStageFile` / `sync` / `check` / `reload`,
- `pkg/util` : `IsSameConfig` / `getFileInfo` / `IsFileExist`,
- `pkg/core/processor.go` : `OnDemandProcessor`, `IntervalProcessor`,
  `WatchProcessor`, `mapKVPairs`,
- `pkg/run.go` (Run) : the coordinator loop and
  `getTemplateConfigFromRecord`.

External effects (filesystem, commands, the KV store client and Go
channels) are modelled by explicit state records and oracle inputs.
Machine integers are `Nat`/`Int` with explicit range checks where the
Go code checks them.  The md5 content digest is modelled as the content
itself (a collision-free digest abstraction: equal digests iff equal
contents).
-/

set_option autoImplicit false

namespace Renderizr

/-! ## Data model: `config.TemplateConfig` (pkg/config/template.go) -/

/-- Embedding of `config.TemplateConfig`.  The Go field `Prefix` is named
`pfx` here.  `uid`/`gid` are Go `int`s. -/
structure TemplateConfig where
  src : String
  dest : String
  uid : Int
  gid : Int
  mode : String
  pfx : String
  checkCmd : String
  reloadCmd : String
deriving DecidableEq, Repr

/-- Embedding of `config.NewTemplateConfig`: the defaults every parsed
template record starts from. -/
def NewTemplateConfig : TemplateConfig :=
  { src := "", dest := "", uid := 0, gid := 0, mode := "0644",
    pfx := "/", checkCmd := "", reloadCmd := "" }

/-! ## Go `strconv` parsing

`getTemplateConfigFromRecord` uses `strconv.ParseInt(s, 10, 0)` for
uid/gid, and `getExpectedFileMode` uses `strconv.ParseUint(s, 0, 32)`
for the mode string.  Both are embedded below, including Go's base-0
auto-detection (`0b`/`0o`/`0x` prefixes, a bare leading `0` meaning
octal, otherwise decimal) and its underscore-separator rule. -/

/-- Go `lower(c) = c | ('x' - 'X')`: byte-wise lower-casing used by
`strconv` when recognising base prefixes and hex digits. -/
def lowerC (c : Char) : Char :=
  Char.ofNat (Nat.lor c.toNat 32)

/-- Decimal digit test, as in Go `'0' <= c && c <= '9'`. -/
def isDigit (c : Char) : Bool :=
  decide ('0' ≤ c) && decide (c ≤ '9')

/-- Embedding of Go `strconv.underscoreOK`: underscores must separate
successive digits or follow a base prefix.  `saw` ranges over the marker
characters Go itself uses. -/
def underscoreOK (cs : List Char) : Bool :=
  let cs1 := match cs with
    | c :: rest => if c = '-' || c = '+' then rest else c :: rest
    | [] => []
  let startState : List Char × Bool × Char := match cs1 with
    | c0 :: c1 :: rest =>
      if c0 = '0' && (lowerC c1 = 'b' || lowerC c1 = 'o' || lowerC c1 = 'x') then
        (rest, lowerC c1 = 'x', '0')
      else (cs1, false, '^')
    | _ => (cs1, false, '^')
  let body := startState.1
  let hex := startState.2.1
  let step : (Bool × Char) → Char → (Bool × Char) := fun acc c =>
    if !acc.1 then acc
    else if isDigit c || (hex && decide ('a' ≤ lowerC c) && decide (lowerC c ≤ 'f')) then
      (true, '0')
    else if c = '_' then
      (if acc.2 = '0' then (true, '_') else (false, acc.2))
    else if acc.2 = '_' then (false, acc.2)
    else (true, '!')
  let final := body.foldl step (true, startState.2.2)
  final.1 && decide (final.2 ≠ '_')

/-- Value of a digit character in bases up to 36, as Go `strconv`
accepts them (`0-9`, `a-z`, `A-Z`). -/
def digitValue (c : Char) : Option Nat :=
  if isDigit c then some (c.toNat - 48)
  else if decide ('a' ≤ c) && decide (c ≤ 'z') then some (c.toNat - 97 + 10)
  else if decide ('A' ≤ c) && decide (c ≤ 'Z') then some (c.toNat - 65 + 10)
  else none

/-- Accumulate the digits of one number, skipping the underscores that
`underscoreOK` already validated; `none` on an invalid digit or when the
value exceeds `maxVal` (Go returns `ErrRange` there). -/
def parseDigits (base maxVal : Nat) (digits : List Char) : Option Nat :=
  digits.foldl (fun acc c =>
    match acc with
    | none => none
    | some n =>
      if c = '_' then some n
      else match digitValue c with
        | some d => if d < base then
            (if n * base + d ≤ maxVal then some (n * base + d) else none)
          else none
        | none => none) (some 0)

/-- Embedding of Go `strconv.ParseUint(s, 0, 32)`: no sign allowed,
base auto-detected from the `0b`/`0o`/`0x` prefix or a bare leading `0`
(octal), otherwise base 10; result must fit in 32 bits. -/
def goParseUint32Base0 (s : String) : Option Nat :=
  let cs := s.toList
  match cs with
  | [] => none
  | c :: _ =>
    if c = '+' || c = '-' then none
    else if !underscoreOK cs then none
    else
      let split : Nat × List Char := match cs with
        | '0' :: c1 :: c2 :: rest =>
          if lowerC c1 = 'b' then (2, c2 :: rest)
          else if lowerC c1 = 'o' then (8, c2 :: rest)
          else if lowerC c1 = 'x' then (16, c2 :: rest)
          else (8, c1 :: c2 :: rest)
        | '0' :: rest => (8, rest)
        | _ => (10, cs)
      parseDigits split.1 (2 ^ 32 - 1) split.2

/-- Embedding of Go `strconv.ParseInt(s, 10, 0)` (bit size 0 is the
64-bit `int`): optional sign, decimal digits only (base 10 admits no
underscores), 64-bit range check. -/
def goParseInt10 (s : String) : Option Int :=
  match s.toList with
  | [] => none
  | c :: rest =>
    let neg := c = '-'
    let ds := if c = '-' || c = '+' then rest else c :: rest
    if ds = [] then none
    else if ds.all isDigit then
      let n := ds.foldl (fun acc d => acc * 10 + (d.toNat - 48)) (0 : Nat)
      if neg then (if n ≤ 2 ^ 63 then some (-(n : Int)) else none)
      else (if n < 2 ^ 63 then some (n : Int) else none)
    else none

/-! ## Template record parsing (`getTemplateConfigFromRecord`) -/

/-- Embedding of Go `strings.Split` with a non-empty separator, via
`String.splitOn` (identical semantics for non-empty separators). -/
def goSplit (s sep : String) : List String :=
  s.splitOn sep

/-- Embedding of `getTemplateConfigFromRecord` (pkg/run.go): builds a
`TemplateConfig` from a `;`-split record
`source;destination;owner;mode;checkCommand;reloadCommand`.  The Go
function also takes the global prefix parameter but never reads it. -/
def getTemplateConfigFromRecord (record : List String) : Except String TemplateConfig :=
  if record.length < 2 then
    .error "Template record must have at least two elements (src;dst)"
  else
    let tc0 := NewTemplateConfig
    let tc1 := { tc0 with src := record.getD 0 "", dest := record.getD 1 "" }
    if record.length < 3 then .ok tc1
    else
      let owner := record.getD 2 ""
      let withOwner : Except String TemplateConfig :=
        if owner = "" then .ok tc1
        else
          let parts := goSplit owner ":"
          if parts.length ≠ 2 then .error "Owner should be provided as uid:gid"
          else
            match goParseInt10 (parts.getD 0 ""), goParseInt10 (parts.getD 1 "") with
            | some uid, some gid => .ok { tc1 with uid := uid, gid := gid }
            | none, _ => .error "invalid uid"
            | some _, none => .error "invalid gid"
      match withOwner with
      | .error e => .error e
      | .ok tc2 =>
        if record.length < 4 then .ok tc2
        else
          let tc3 := { tc2 with mode := record.getD 3 "" }
          if record.length < 5 then .ok tc3
          else
            let tc4 := { tc3 with checkCmd := record.getD 4 "" }
            if record.length < 6 then .ok tc4
            else .ok { tc4 with reloadCmd := record.getD 5 "" }

/-! ## Key transformation (`setKVs`) -/

/-- Embedding of Go `strings.TrimPrefix`. -/
def trimPfx (s p : String) : String :=
  if s.startsWith p then s.drop p.length else s

/-- Go `path/filepath.Clean` restricted to absolute inputs (every call
site below passes a string starting with `/`): split on `/`, drop empty
and `.` components, let `..` pop the previous component (or vanish at
the root). -/
def cleanAbs (p : String) : String :=
  let comps := (p.splitOn "/").foldl (fun acc c =>
    if c = "" || c = "." then acc
    else if c = ".." then acc.dropLast
    else acc ++ [c]) ([] : List String)
  "/" ++ String.intercalate "/" comps

/-- Embedding of Go `filepath.Join("/", s)` = `Clean("/" ++ "/" ++ s)`. -/
def goFilepathJoinRoot (s : String) : String :=
  cleanAbs ("//" ++ s)

/-- Embedding of `Template.setKVs` (pkg/core/global.go): purge the
store, then insert every pair under
`filepath.Join("/", strings.TrimPrefix(k, prefix))`.  The memkv store is
modelled as the resulting association list (Go map iteration order and
key collisions after cleaning are not observable in any claim). -/
def setKVsPure (pfx : String) (kvs : List (String × String)) : List (String × String) :=
  kvs.map (fun kv => (goFilepathJoinRoot (trimPfx kv.1 pfx), kv.2))

/-! ## Filesystem model for the renderer

Only the destination file matters to the renderer's observable
behaviour; the staged temporary file is carried explicitly through the
pipeline.  A file is its metadata (as `getFileInfo` reads it: uid, gid,
`FileMode`) plus its content (standing in for the md5 digest). -/

/-- Metadata of a file as compared by `util.IsSameConfig` (uid, gid and
the full `os.FileMode` value). -/
structure FileMeta where
  uid : Int
  gid : Int
  mode : Nat
deriving DecidableEq, Repr

/-- A file: metadata plus content.  The content also stands in for the
md5 digest (collision-free digest abstraction). -/
structure File where
  meta : FileMeta
  content : String
deriving DecidableEq, Repr

/-- The slice of the filesystem a render can observe or change: the
destination file, or `none` when it does not exist. -/
structure FS where
  dest : Option File
deriving DecidableEq, Repr

/-- Outcome of `os.Rename(stage, dest)` as the code distinguishes it:
success, the error whose text contains "device or resource busy"
(triggering the write fallback), or any other error (fatal for this
render). -/
inductive RenameOutcome where
  | renameOk
  | renameBusy
  | renameFailed
deriving DecidableEq, Repr

/-- Oracle for every external effect a render performs, in source
order.  Each `Bool` is `true` when the corresponding Go call succeeds;
`execOut` is the deterministic output of executing the compiled
template against the memkv store contents. -/
structure RenderEnv where
  srcExists : Bool
  compileOk : Bool
  tempCreateOk : Bool
  executeOk : Bool
  execOut : List (String × String) → String
  chmodOk : Bool
  chownOk : Bool
  statOk : Bool
  sameInfoOk : Bool
  checkOk : Bool
  renameResult : RenameOutcome
  readStageOk : Bool
  writeOk : Bool
  reloadOk : Bool

/-! ## `Template.getExpectedFileMode` (pkg/core/global.go) -/

/-- Embedding of `Template.getExpectedFileMode`: default `0644` (420);
if `Mode` is empty and the destination exists, its current mode is
used (a failing `os.Stat` aborts the render); a non-empty `Mode` is
parsed with `strconv.ParseUint(mode, 0, 32)` and cast to `os.FileMode`. -/
def getExpectedFileMode (t : TemplateConfig) (env : RenderEnv) (fs : FS) :
    Except String Nat :=
  if t.mode = "" then
    match fs.dest with
    | some d => if env.statOk then .ok d.meta.mode else .error "stat failed"
    | none => .ok 420
  else
    match goParseUint32Base0 t.mode with
    | some m => .ok m
    | none => .error ("invalid mode: " ++ t.mode)

/-! ## `Template.createStageFile` -/

/-- The staged candidate file as `createStageFile` produces it on
success: the executed template output, chmod-ed to `fileMode` and
chown-ed to the configured uid/gid. -/
def stagedFile (t : TemplateConfig) (env : RenderEnv) (fileMode : Nat)
    (store : List (String × String)) : File :=
  { meta := { uid := t.uid, gid := t.gid, mode := fileMode },
    content := env.execOut store }

/-- Embedding of `Template.createStageFile`: missing source, template
compile failure, temp-file creation, execute, chmod and chown failures
abort in source order; otherwise the staged file is returned. -/
def createStageFile (t : TemplateConfig) (env : RenderEnv) (fileMode : Nat)
    (store : List (String × String)) : Except String File :=
  if !env.srcExists then .error ("Missing template: " ++ t.src)
  else if !env.compileOk then .error ("Unable to process template " ++ t.src)
  else if !env.tempCreateOk then .error "temp file creation failed"
  else if !env.executeOk then .error "template execution failed"
  else if !env.chmodOk then .error "chmod failed"
  else if !env.chownOk then .error "chown failed"
  else .ok (stagedFile t env fileMode store)

/-- True when `createStageFile` got as far as creating the temporary
file (its cleanup `defer` removes the file only in that case). -/
def tempWasCreated (env : RenderEnv) : Bool :=
  env.srcExists && env.compileOk && env.tempCreateOk

/-! ## `util.IsSameConfig` -/

/-- Embedding of `util.IsSameConfig(stage, dest)`: `false` when the
destination does not exist; an error when `getFileInfo` fails on either
file; otherwise equality of uid, gid, mode and content digest. -/
def isSameConfig (env : RenderEnv) (stage : File) (fs : FS) : Except String Bool :=
  match fs.dest with
  | none => .ok false
  | some d =>
    if env.sameInfoOk then
      .ok (decide (d.meta.uid = stage.meta.uid) &&
           decide (d.meta.gid = stage.meta.gid) &&
           decide (d.meta.mode = stage.meta.mode) &&
           decide (d.content = stage.content))
    else .error "File not found"

/-! ## `Template.sync` -/

/-- Result of one render: the returned error (if any), the filesystem
afterwards, the staged candidate (when `createStageFile` succeeded),
whether the destination replace step ran, and whether the staged
temporary file was removed. -/
structure RenderOutcome where
  result : Except String Unit
  fs : FS
  staged : Option File
  wrote : Bool
  stagedRemoved : Bool
deriving Repr

/-- Embedding of the tail of `Template.sync` after the rename/write
step succeeded and produced `fs1`: run the reload command when
configured; its failure is returned but the destination update stays. -/
def afterReplace (t : TemplateConfig) (env : RenderEnv) (fs1 : FS) :
    Except String Unit × FS × Bool :=
  if t.reloadCmd ≠ "" && !env.reloadOk then (.error "reload command failed", fs1, true)
  else (.ok (), fs1, true)

/-- Embedding of `Template.sync` (error?, filesystem after, wrote?).
Source order: compare staged and destination (`IsSameConfig`); in noop
mode return at once; when out of sync run the check command gate, then
`os.Rename`, falling back on "device or resource busy" to reading the
stage and rewriting the destination in place (`ioutil.WriteFile`
changes no mode bits on an existing file, then `os.Chown` with the
configured owner, its error discarded); finally the reload command. -/
def syncStep (t : TemplateConfig) (env : RenderEnv) (doNoOp : Bool)
    (stage : File) (fileMode : Nat) (fs : FS) : Except String Unit × FS × Bool :=
  match isSameConfig env stage fs with
  | .error e => (.error e, fs, false)
  | .ok same =>
    if doNoOp then (.ok (), fs, false)
    else if !same then
      if t.checkCmd ≠ "" && !env.checkOk then
        (.error "Config check failed: check command failed", fs, false)
      else
        match env.renameResult with
        | .renameOk => afterReplace t env { dest := some stage }
        | .renameBusy =>
          if !env.readStageOk then (.error "read stage failed", fs, false)
          else if !env.writeOk then (.error "write dest failed", fs, false)
          else
            let newMode := match fs.dest with
              | some d => d.meta.mode
              | none => fileMode
            afterReplace t env
              { dest := some { meta := { uid := t.uid, gid := t.gid, mode := newMode },
                               content := stage.content } }
        | .renameFailed => (.error "rename failed", fs, false)
    else (.ok (), fs, false)

/-! ## `Template.Render` -/

/-- Embedding of `Template.Render` for one call as serialized by its
mutex (the mutex itself is modelled in the interleaving semantics
further down): expected mode, then `setKVs`, then `createStageFile`,
then `sync`.  `stagedRemoved` reflects the cleanup defers of
`createStageFile` (on error only) and `sync` (always), both skipped
when `keepStageFile` is set. -/
def Render (t : TemplateConfig) (env : RenderEnv) (doNoOp keep : Bool)
    (kvs : List (String × String)) (fs : FS) : RenderOutcome :=
  match getExpectedFileMode t env fs with
  | .error e => { result := .error e, fs := fs, staged := none,
                  wrote := false, stagedRemoved := false }
  | .ok fileMode =>
    let store := setKVsPure t.pfx kvs
    match createStageFile t env fileMode store with
    | .error e => { result := .error e, fs := fs, staged := none, wrote := false,
                    stagedRemoved := tempWasCreated env && !keep }
    | .ok stage =>
      let r := syncStep t env doNoOp stage fileMode fs
      { result := r.1, fs := r.2.1, staged := some stage,
        wrote := r.2.2, stagedRemoved := !keep }

/-! ## Interleaving semantics of two concurrent `Render` calls

`Template.Render` takes `t.mutex.Lock()` on entry and releases it by
`defer` on return (unconditionally: the `useMutex` flag is stored but
never consulted).  The body is modelled as the atomic steps that touch
shared state: the memkv store (purged and repopulated by `setKVs`,
read by the template execution) and the destination file.  Thread
programs: acquire the lock, purge the store, repopulate it from the
thread's own snapshot, execute the template against the store, then
replace the destination and release the lock. -/

/-- Static context of the two competing renders: the shared template
prefix and executor, and each thread's key/value snapshot (Interval and
Watch may pass different snapshots). -/
structure RenderCtx where
  pfx : String
  kvs0 : List (String × String)
  kvs1 : List (String × String)
  execOut : List (String × String) → String

/-- Shared state of the two render threads: the mutex owner, the memkv
store, each thread's staged output, each thread's program counter and
the destination content.  `lastWriter` is a ghost field recording which
thread performed the destination replace most recently. -/
structure LockState where
  lock : Option Bool
  kvstore : List (String × String)
  temp0 : Option String
  temp1 : Option String
  pc0 : Nat
  pc1 : Nat
  destContent : Option String
  lastWriter : Option Bool
deriving DecidableEq, Repr

/-- Program counter of thread `t`. -/
def pcOf (t : Bool) (s : LockState) : Nat :=
  cond t s.pc1 s.pc0

/-- Staged output slot of thread `t`. -/
def tempOf (t : Bool) (s : LockState) : Option String :=
  cond t s.temp1 s.temp0

/-- Snapshot of thread `t`. -/
def kvsOf (ctx : RenderCtx) (t : Bool) : List (String × String) :=
  cond t ctx.kvs1 ctx.kvs0

/-- Set the program counter of thread `t`. -/
def setPc (t : Bool) (n : Nat) (s : LockState) : LockState :=
  if t then { s with pc1 := n } else { s with pc0 := n }

/-- Set the staged output slot of thread `t`. -/
def setTemp (t : Bool) (v : Option String) (s : LockState) : LockState :=
  if t then { s with temp1 := v } else { s with temp0 := v }

/-- One atomic step of thread `t`.  pc 0: `mutex.Lock()` (blocks while
held, modelled as a stutter); pc 1: `store.Purge()`; pc 2: the `Set`
loop of `setKVs`; pc 3: `tmpl.Execute` reading the shared store;
pc 4: the destination replace of `sync` followed by the deferred
`mutex.Unlock()`; pc 5: returned. -/
def renderStep (ctx : RenderCtx) (t : Bool) (s : LockState) : LockState :=
  let pc := pcOf t s
  if pc = 0 then
    (if s.lock = none then setPc t 1 { s with lock := some t } else s)
  else if pc = 1 then setPc t 2 { s with kvstore := [] }
  else if pc = 2 then setPc t 3 { s with kvstore := setKVsPure ctx.pfx (kvsOf ctx t) }
  else if pc = 3 then setPc t 4 (setTemp t (some (ctx.execOut s.kvstore)) s)
  else if pc = 4 then
    setPc t 5 { s with destContent := tempOf t s, lock := none, lastWriter := some t }
  else s

/-- Initial state: lock free, both threads about to call `Render`,
destination not yet written by either. -/
def lockInit : LockState :=
  { lock := none, kvstore := [], temp0 := none, temp1 := none,
    pc0 := 0, pc1 := 0, destContent := none, lastWriter := none }

/-- Run a schedule (list of thread choices) from the initial state. -/
def lockRun (ctx : RenderCtx) (tr : List Bool) : LockState :=
  tr.foldl (fun s t => renderStep ctx t s) lockInit

/-- Thread `t` is inside the body of `Render` (between `Lock` and
`Unlock`). -/
def inCrit (t : Bool) (s : LockState) : Prop :=
  1 ≤ pcOf t s ∧ pcOf t s ≤ 4

/-- The complete render output of thread `t`: its snapshot loaded into
the store by `setKVs`, then executed — a destination holding this for
some `t` is a full render of one snapshot, never a mix. -/
def renderOf (ctx : RenderCtx) (t : Bool) : String :=
  ctx.execOut (setKVsPure ctx.pfx (kvsOf ctx t))

/-! ## Processor state machines (pkg/core/processor.go)

Channel operations are modelled by oracle inputs: which `select` arm
fires, whether the wrapped processor / subscription call fails, and
what the watch event channel yields. -/

/-- Which arm of the `select` in `IntervalProcessor.Run` becomes ready:
the stop channel or the `time.After` timer. -/
inductive IntervalSig where
  | stopReady
  | timerFired
deriving DecidableEq, Repr

/-- State of `IntervalProcessor.Run`: `atSelect` is `false` when the
loop is about to execute the wrapped processor and `true` when it is
blocked in the `select`; `doneClosed` records `close(p.doneChan)`
(reached only if `Run` returns). -/
structure IntervalState where
  atSelect : Bool
  runCount : Nat
  errCount : Nat
  doneClosed : Bool
deriving DecidableEq, Repr

/-- One iteration step of `IntervalProcessor.Run` under Go semantics.
Executing the wrapped processor forwards its error (if any) on the
error channel and moves to the `select`.  In the `select`, `break` in
the stop arm exits only the `select` statement, and `continue` in the
timer arm restarts the loop — so both arms return to executing the
wrapped processor; the `for` loop is never left and `doneClosed` is
never set. -/
def intervalStep (procFails : Nat → Bool) (sig : IntervalSig) (s : IntervalState) :
    IntervalState :=
  if !s.atSelect then
    { s with
      atSelect := true
      runCount := s.runCount + 1
      errCount := s.errCount + (if procFails s.runCount then 1 else 0) }
  else
    match sig with
    | .stopReady => { s with atSelect := false }
    | .timerFired => { s with atSelect := false }

/-- Initial state of `IntervalProcessor.Run`. -/
def intervalInit : IntervalState :=
  { atSelect := false, runCount := 0, errCount := 0, doneClosed := false }

/-- Run `IntervalProcessor.Run` under a schedule of select outcomes. -/
def intervalRun (procFails : Nat → Bool) (sigs : List IntervalSig) : IntervalState :=
  sigs.foldl (fun s g => intervalStep procFails g s) intervalInit

/-- Embedding of `mapKVPairs`: builds a `map[string]string` from the
received `KVPair` batch; modelled as an insert-with-overwrite fold
(Go map iteration order is not observable in any claim). -/
def mapKVPairs (pairs : List (String × String)) : List (String × String) :=
  pairs.foldl (fun m kv => (m.filter (fun e => e.1 ≠ kv.1)) ++ [kv]) []

/-- Oracle input for one step of `WatchProcessor.Run`: the `WatchTree`
call fails or succeeds, or the events channel yields a batch, or the
events channel is closed (a receive then yields the zero value `nil`
immediately). -/
inductive WatchIn where
  | subFail
  | subOk
  | recvBatch (pairs : List (String × String))
  | recvClosed
deriving DecidableEq, Repr

/-- Control position of the watch goroutine: about to call `WatchTree`,
sleeping in the failure backoff, or inside the inner receive loop. -/
inductive WatchPhase where
  | subscribing
  | backoff
  | receiving
deriving DecidableEq, Repr

/-- State of `WatchProcessor.Run`: phase, errors forwarded on the error
channel, backoff sleeps performed, the snapshots passed to
`template.Render`, and `close(p.doneChan)` (reached only if `Run`
returns — it never does: the inner `for`/`select` has no exit and the
outer `for` has no `break`, so `wg.Wait()` blocks forever). -/
structure WatchState where
  phase : WatchPhase
  errCount : Nat
  sleepCount : Nat
  renders : List (List (String × String))
  doneClosed : Bool
deriving DecidableEq, Repr

/-- One step of the watch goroutine.  A failing `WatchTree` forwards
the error and enters the 2-second backoff; the backoff completes back
into re-subscribing; a successful subscription enters the inner receive
loop, whose only `select` arm receives from `events` and renders the
mapped batch — a closed channel yields the zero value, rendering an
empty snapshot.  No transition leaves `receiving` and none sets
`doneClosed`. -/
def watchStep (inp : WatchIn) (s : WatchState) : WatchState :=
  match s.phase with
  | .subscribing =>
    match inp with
    | .subFail => { s with errCount := s.errCount + 1, phase := .backoff }
    | _ => { s with phase := .receiving }
  | .backoff => { s with sleepCount := s.sleepCount + 1, phase := .subscribing }
  | .receiving =>
    match inp with
    | .recvBatch pairs => { s with renders := s.renders ++ [mapKVPairs pairs] }
    | .recvClosed => { s with renders := s.renders ++ [mapKVPairs []] }
    | _ => s

/-- Initial state of `WatchProcessor.Run`. -/
def watchInit : WatchState :=
  { phase := .subscribing, errCount := 0, sleepCount := 0,
    renders := [], doneClosed := false }

/-- Run the watch goroutine under a schedule of oracle inputs. -/
def watchRun (inps : List WatchIn) : WatchState :=
  inps.foldl (fun s i => watchStep i s) watchInit

/-- Schedule in which establishing the subscription fails `n` times in
a row: each failure consumes one error-forwarding step and one backoff
step (the backoff step ignores its input). -/
def failTrace (n : Nat) : List WatchIn :=
  (List.replicate n [WatchIn.subFail, WatchIn.subFail]).flatten

/-! ## Coordinator loop (pkg/run.go, daemon mode)

`Run` creates `stopChan := make(<-chan struct{})` — a receive-only
channel nothing can ever send on or close — `doneChan` and a buffered
`errChan`, then multiplexes: a received error is logged; a captured
signal executes `close(doneChan)`; a receive from `doneChan` (ready
exactly when `doneChan` is closed, since no processor ever sends on it
or closes it — their `Run` loops never return) calls `os.Exit(0)`. -/

/-- One multiplexed event of the coordinator loop. -/
inductive CoEvent where
  | errRecv
  | sigRecv
  | doneRecv
deriving DecidableEq, Repr

/-- State of the coordinator loop.  `stopClosed` tracks the shared stop
channel (no statement in `Run` ever closes it — it cannot even be
closed, being receive-only); `doneClosed` tracks `close(doneChan)`;
`panicked` records a second `close` of an already-closed channel. -/
structure CoState where
  stopClosed : Bool
  doneClosed : Bool
  errLogged : Nat
  exitCode : Option Nat
  panicked : Bool
deriving DecidableEq, Repr

/-- One iteration of the coordinator `select` loop. -/
def coStep (e : CoEvent) (s : CoState) : CoState :=
  if s.exitCode.isSome || s.panicked then s
  else match e with
  | .errRecv => { s with errLogged := s.errLogged + 1 }
  | .sigRecv =>
    if s.doneClosed then { s with panicked := true }
    else { s with doneClosed := true }
  | .doneRecv =>
    if s.doneClosed then { s with exitCode := some 0 } else s

/-- Initial coordinator state. -/
def coInit : CoState :=
  { stopClosed := false, doneClosed := false, errLogged := 0,
    exitCode := none, panicked := false }

/-- Run the coordinator loop under a schedule of events. -/
def coRun (evs : List CoEvent) : CoState :=
  evs.foldl (fun s e => coStep e s) coInit

/-! ## Spec-side definition for the mode-string claim -/

/-- Spec-side reading of the mode field, following the spec words
"`mode` is an octal string": every character is an octal digit and the
value is the base-8 reading.  To be compared with the source's
`goParseUint32Base0`. -/
def specOctalRead (s : String) : Option Nat :=
  if s.toList ≠ [] ∧ s.toList.all (fun c => isDigit c && decide (c ≤ '7')) then
    some (s.toList.foldl (fun acc c => acc * 8 + (c.toNat - 48)) 0)
  else none

/-! ## Concrete example configurations used by witnesses -/

/-- All-success render environment producing `"bar"` for any store. -/
def envAllOk : RenderEnv :=
  { srcExists := true
    compileOk := true
    tempCreateOk := true
    executeOk := true
    execOut := fun _ => "bar"
    chmodOk := true
    chownOk := true
    statOk := true
    sameInfoOk := true
    checkOk := true
    renameResult := .renameOk
    readStageOk := true
    writeOk := true
    reloadOk := true }

/-- Template with inherited mode. -/
def tcInherit : TemplateConfig :=
  { NewTemplateConfig with src := "a.tmpl", dest := "a.conf", mode := "" }

/-- Destination that exists with bits 0640, owned by uid/gid 0. -/
def fsDest640 : FS :=
  { dest := some { meta := { uid := 0, gid := 0, mode := 416 }, content := "old" } }

/-- Empty filesystem: the destination does not exist. -/
def fsEmpty : FS :=
  { dest := none }

/-- Template with a check command configured. -/
def tcCheck : TemplateConfig :=
  { tcInherit with checkCmd := "check-cmd {{.}}" }

/-- Environment in which the check command fails. -/
def envCheckFail : RenderEnv :=
  { envAllOk with checkOk := false }

/-- Environment in which `os.Stat` on the destination fails. -/
def envStatFail : RenderEnv :=
  { envAllOk with statOk := false }

/-- A template record with the owner field left empty. -/
def ownerRecord : List String :=
  ["nginx.conf.tmpl", "nginx.conf", ""]

/-- The `TemplateConfig` produced from `ownerRecord`: uid and gid stay
at the `NewTemplateConfig` defaults `0`. -/
def tcOwnerParsed : TemplateConfig :=
  { src := "nginx.conf.tmpl", dest := "nginx.conf", uid := 0, gid := 0,
    mode := "0644", pfx := "/", checkCmd := "", reloadCmd := "" }

/-- Destination owned by uid/gid 1000 with bits 0644. -/
def fsOwned : FS :=
  { dest := some { meta := { uid := 1000, gid := 1000, mode := 420 }, content := "old" } }

/-- Template whose mode field is the string "644" (no leading zero). -/
def tcMode644 : TemplateConfig :=
  { NewTemplateConfig with src := "a.tmpl", dest := "a.conf", mode := "644" }

/-- Template whose mode field "0778" fails to parse (8 is not an octal
digit and the leading zero selects base 8). -/
def tcModeBad : TemplateConfig :=
  { NewTemplateConfig with src := "a.tmpl", dest := "a.conf", mode := "0778" }

/-- Invariant of the two-thread interleaving semantics: the lock owner
is exactly the thread whose program counter is inside the render body;
while a thread holds the lock past its populate step the store holds
exactly its snapshot; past its execute step its staged output is its
full render; the destination always holds the full render of
`lastWriter`; and a finished thread implies somebody wrote. -/
def LockInv (ctx : RenderCtx) (s : LockState) : Prop :=
  (s.lock = some false ↔ (1 ≤ s.pc0 ∧ s.pc0 ≤ 4)) ∧
  (s.lock = some true ↔ (1 ≤ s.pc1 ∧ s.pc1 ≤ 4)) ∧
  (s.lock = some false → s.pc0 = 3 → s.kvstore = setKVsPure ctx.pfx ctx.kvs0) ∧
  (s.lock = some true → s.pc1 = 3 → s.kvstore = setKVsPure ctx.pfx ctx.kvs1) ∧
  (s.lock = some false → s.pc0 = 4 → s.temp0 = some (renderOf ctx false)) ∧
  (s.lock = some true → s.pc1 = 4 → s.temp1 = some (renderOf ctx true)) ∧
  (s.destContent = s.lastWriter.map (fun w => renderOf ctx w)) ∧
  (s.pc0 = 5 → s.lastWriter ≠ none) ∧
  (s.pc1 = 5 → s.lastWriter ≠ none)

/-- Concrete interleaving context for the mutual-exclusion witness. -/
def ctx0 : RenderCtx :=
  { pfx := "/", kvs0 := [("/a", "1")], kvs1 := [("/b", "2")],
    execOut := fun st => String.intercalate ";" (st.map (fun kv => kv.1 ++ "=" ++ kv.2)) }

/-- Schedule running thread 0's render to completion, then thread 1's. -/
def tr0 : List Bool :=
  [false, false, false, false, false, true, true, true, true, true]


end Renderizr

namespace Renderizr

/-! # Theorems -/

/-- C2: for every render in which the check command is configured and
fails, `render` returns an error, the destination file (content and
metadata) is exactly as before the render started — the replace step is
never reached — and the staged temporary file is removed unless
retention is requested. -/
theorem render_check_failure_preserves_destination
    (t : TemplateConfig) (env : RenderEnv) (keep : Bool)
    (kvs : List (String × String)) (fs : FS) (m : Nat)
    (hmode : getExpectedFileMode t env fs = .ok m)
    (hsrc : env.srcExists = true) (hcomp : env.compileOk = true)
    (htemp : env.tempCreateOk = true) (hexec : env.executeOk = true)
    (hchmod : env.chmodOk = true) (hchown : env.chownOk = true)
    (hdiff : isSameConfig env (stagedFile t env m (setKVsPure t.pfx kvs)) fs = .ok false)
    (hcmd : t.checkCmd ≠ "")
    (hchk : env.checkOk = false) :
    (Render t env false keep kvs fs).result =
      .error "Config check failed: check command failed" ∧
    (Render t env false keep kvs fs).fs = fs ∧
    (Render t env false keep kvs fs).wrote = false ∧
    (Render t env false keep kvs fs).stagedRemoved = !keep := by
  simp only [Render, hmode, createStageFile, hsrc, hcomp, htemp, hexec, hchmod, hchown,
    Bool.not_true, Bool.false_eq_true, if_false, syncStep, hdiff]
  simp [hcmd, hchk]

/-- Closed witness for C2 at a concrete template, environment and
filesystem. -/
theorem render_check_failure_witness :
    (Render tcCheck envCheckFail false false [] fsDest640).result =
      .error "Config check failed: check command failed" ∧
    (Render tcCheck envCheckFail false false [] fsDest640).fs = fsDest640 ∧
    (Render tcCheck envCheckFail false false [] fsDest640).wrote = false ∧
    (Render tcCheck envCheckFail false false [] fsDest640).stagedRemoved = !false :=
  render_check_failure_preserves_destination tcCheck envCheckFail false [] fsDest640 416
    rfl rfl rfl rfl rfl rfl rfl rfl (by decide) rfl

/-- C7: contrary to the record-syntax documentation ("owner empty -
inherits ownership"), an empty owner field leaves uid/gid at the
configured defaults `0:0`, and `createStageFile` chowns the staged file
to them unconditionally; a successful render then replaces a
destination owned by 1000:1000 with a file owned by 0:0. -/
theorem empty_owner_not_inherited :
    getTemplateConfigFromRecord ownerRecord = .ok tcOwnerParsed ∧
    tcOwnerParsed.uid = 0 ∧ tcOwnerParsed.gid = 0 ∧
    fsOwned.dest.map (fun f => f.meta.uid) = some 1000 ∧
    (Render tcOwnerParsed envAllOk false false [] fsOwned).result = .ok () ∧
    (Render tcOwnerParsed envAllOk false false [] fsOwned).fs.dest =
      some { meta := { uid := 0, gid := 0, mode := 420 }, content := "bar" } := by
  refine ⟨rfl, rfl, rfl, rfl, rfl, rfl⟩

/-- C8: with the mode field unset, the staged file inherits the
permission bits of an existing destination, a stat failure on an
existing destination makes the render fail, and a missing destination
yields the static default `0644`. -/
theorem render_mode_unset_inheritance
    (t : TemplateConfig) (env : RenderEnv) (keep : Bool)
    (kvs : List (String × String)) (fs : FS) (d : File)
    (hm : t.mode = "")
    (hsrc : env.srcExists = true) (hcomp : env.compileOk = true)
    (htemp : env.tempCreateOk = true) (hexec : env.executeOk = true)
    (hchmod : env.chmodOk = true) (hchown : env.chownOk = true) :
    (fs.dest = some d → env.statOk = true →
      (Render t env false keep kvs fs).staged =
        some (stagedFile t env d.meta.mode (setKVsPure t.pfx kvs)) ∧
      (stagedFile t env d.meta.mode (setKVsPure t.pfx kvs)).meta.mode = d.meta.mode) ∧
    (fs.dest = some d → env.statOk = false →
      (Render t env false keep kvs fs).result = .error "stat failed" ∧
      (Render t env false keep kvs fs).fs = fs ∧
      (Render t env false keep kvs fs).staged = none) ∧
    (fs.dest = none →
      (Render t env false keep kvs fs).staged =
        some (stagedFile t env 420 (setKVsPure t.pfx kvs)) ∧
      (stagedFile t env 420 (setKVsPure t.pfx kvs)).meta.mode = 420) := by
  refine ⟨?_, ?_, ?_⟩
  · intro hd hstat
    have hmode : getExpectedFileMode t env fs = .ok d.meta.mode := by
      simp [getExpectedFileMode, hm, hd, hstat]
    simp only [Render, hmode, createStageFile, hsrc, hcomp, htemp, hexec, hchmod, hchown,
      Bool.not_true, Bool.false_eq_true, if_false]
    exact ⟨trivial, rfl⟩
  · intro hd hstat
    have hmode : getExpectedFileMode t env fs = .error "stat failed" := by
      simp [getExpectedFileMode, hm, hd, hstat]
    simp only [Render, hmode]
    refine ⟨?_, ?_, ?_⟩ <;> trivial
  · intro hd
    have hmode : getExpectedFileMode t env fs = .ok 420 := by
      simp [getExpectedFileMode, hm, hd]
    simp only [Render, hmode, createStageFile, hsrc, hcomp, htemp, hexec, hchmod, hchown,
      Bool.not_true, Bool.false_eq_true, if_false]
    exact ⟨trivial, rfl⟩

/-- Closed witness for C8: the three branches at concrete inputs — an
existing destination with bits 0640 yields a staged file with 0640, a
failing stat aborts, and a missing destination yields 0644. -/
theorem render_mode_unset_inheritance_witness :
    ((Render tcInherit envAllOk false false [] fsDest640).staged =
        some (stagedFile tcInherit envAllOk 416 (setKVsPure tcInherit.pfx [])) ∧
      (stagedFile tcInherit envAllOk 416 (setKVsPure tcInherit.pfx [])).meta.mode = 416) ∧
    ((Render tcInherit envStatFail false false [] fsDest640).result = .error "stat failed" ∧
      (Render tcInherit envStatFail false false [] fsDest640).fs = fsDest640 ∧
      (Render tcInherit envStatFail false false [] fsDest640).staged = none) ∧
    ((Render tcInherit envAllOk false false [] fsEmpty).staged =
        some (stagedFile tcInherit envAllOk 420 (setKVsPure tcInherit.pfx [])) ∧
      (stagedFile tcInherit envAllOk 420 (setKVsPure tcInherit.pfx [])).meta.mode = 420) := by
  refine ⟨?_, ?_, ?_⟩
  · exact (render_mode_unset_inheritance tcInherit envAllOk false [] fsDest640
      { meta := { uid := 0, gid := 0, mode := 416 }, content := "old" }
      rfl rfl rfl rfl rfl rfl rfl).1 rfl rfl
  · exact (render_mode_unset_inheritance tcInherit envStatFail false [] fsDest640
      { meta := { uid := 0, gid := 0, mode := 416 }, content := "old" }
      rfl rfl rfl rfl rfl rfl rfl).2.1 rfl rfl
  · exact (render_mode_unset_inheritance tcInherit envAllOk false [] fsEmpty
      { meta := { uid := 0, gid := 0, mode := 416 }, content := "old" }
      rfl rfl rfl rfl rfl rfl rfl).2.2 rfl

/-- C9 counterexample: the code parses the mode string with
`strconv.ParseUint(mode, 0, 32)` — base auto-detection, not octal — so
the mode field "644" denotes the value 644 (decimal), while its octal
reading per the spec is 0644 = 420. -/
theorem mode_string_not_octal_counterexample :
    getExpectedFileMode tcMode644 envAllOk fsEmpty = .ok 644 ∧
    specOctalRead "644" = some 420 ∧
    (644 : Nat) ≠ 420 := by
  refine ⟨rfl, rfl, by decide⟩

/-- C9 (amended): a non-empty mode string is parsed with Go base
auto-detection (leading "0" octal, "0b"/"0o"/"0x" prefixes, otherwise
decimal), so "0644" denotes 0644 but "644" denotes decimal 644; an
unparsable string makes the render fail before any file is staged. -/
theorem render_mode_parse_base0
    (t : TemplateConfig) (env : RenderEnv) (keep : Bool)
    (kvs : List (String × String)) (fs : FS)
    (hm : t.mode ≠ "") :
    (goParseUint32Base0 t.mode = none →
      (Render t env false keep kvs fs).result = .error ("invalid mode: " ++ t.mode) ∧
      (Render t env false keep kvs fs).staged = none ∧
      (Render t env false keep kvs fs).fs = fs ∧
      (Render t env false keep kvs fs).stagedRemoved = false) ∧
    (∀ m, goParseUint32Base0 t.mode = some m →
      getExpectedFileMode t env fs = .ok m) ∧
    goParseUint32Base0 "0644" = some 420 ∧
    goParseUint32Base0 "644" = some 644 := by
  refine ⟨?_, ?_, rfl, rfl⟩
  · intro hp
    have hmode : getExpectedFileMode t env fs = .error ("invalid mode: " ++ t.mode) := by
      simp [getExpectedFileMode, hm, hp]
    simp only [Render, hmode]
    refine ⟨?_, ?_, ?_, ?_⟩ <;> trivial
  · intro m hp
    simp [getExpectedFileMode, hm, hp]

/-- Closed witness for C9 (amended) at the unparsable mode "0778". -/
theorem render_mode_parse_base0_witness :
    (Render tcModeBad envAllOk false false [] fsEmpty).result =
      .error ("invalid mode: " ++ "0778") ∧
    (Render tcModeBad envAllOk false false [] fsEmpty).staged = none ∧
    (Render tcModeBad envAllOk false false [] fsEmpty).fs = fsEmpty ∧
    (Render tcModeBad envAllOk false false [] fsEmpty).stagedRemoved = false :=
  (render_mode_parse_base0 tcModeBad envAllOk false [] fsEmpty (by decide)).1 rfl


/-! ## Renderer helper lemmas and the idempotence theorem -/

/-- Helper: when staged and destination compare equal, `sync` does
nothing. -/
theorem syncStep_same (t : TemplateConfig) (env : RenderEnv) (stage : File) (m : Nat) (fs : FS)
    (h : isSameConfig env stage fs = .ok true) :
    syncStep t env false stage m fs = (.ok (), fs, false) := by
  unfold syncStep
  rw [h]
  simp

/-- Helper: out-of-sync destination with a passing check gate and a
successful rename is replaced by the staged file; reload succeeds or is
unconfigured. -/
theorem syncStep_diff_renameOk (t : TemplateConfig) (env : RenderEnv) (stage : File) (m : Nat) (fs : FS)
    (h : isSameConfig env stage fs = .ok false)
    (hchk : t.checkCmd = "" ∨ env.checkOk = true)
    (hrel : t.reloadCmd = "" ∨ env.reloadOk = true)
    (hren : env.renameResult = RenameOutcome.renameOk) :
    syncStep t env false stage m fs = (.ok (), { dest := some stage }, true) := by
  unfold syncStep afterReplace
  rw [h, hren]
  rcases hchk with hchk | hchk <;> rcases hrel with hrel | hrel <;> simp [hchk, hrel]

/-- Helper: with the staging oracle all-successful, `Render` reduces to
its `sync` step on the staged candidate. -/
theorem Render_reduce (t : TemplateConfig) (env : RenderEnv) (keep : Bool)
    (kvs : List (String × String)) (fs : FS) (m : Nat)
    (hmode : getExpectedFileMode t env fs = .ok m)
    (hsrc : env.srcExists = true) (hcomp : env.compileOk = true)
    (htemp : env.tempCreateOk = true) (hexec : env.executeOk = true)
    (hchmod : env.chmodOk = true) (hchown : env.chownOk = true) :
    Render t env false keep kvs fs =
      { result := (syncStep t env false (stagedFile t env m (setKVsPure t.pfx kvs)) m fs).1,
        fs := (syncStep t env false (stagedFile t env m (setKVsPure t.pfx kvs)) m fs).2.1,
        staged := some (stagedFile t env m (setKVsPure t.pfx kvs)),
        wrote := (syncStep t env false (stagedFile t env m (setKVsPure t.pfx kvs)) m fs).2.2,
        stagedRemoved := !keep } := by
  simp only [Render, hmode, createStageFile, hsrc, hcomp, htemp, hexec, hchmod, hchown,
    Bool.not_true, Bool.false_eq_true, if_false]

/-- Helper: descriptor equality reported by `IsSameConfig` means the
destination file equals the staged file. -/
theorem isSameConfig_true_eq (env : RenderEnv) (stage d : File)
    (h : isSameConfig env stage { dest := some d } = .ok true) :
    d = stage := by
  unfold isSameConfig at h
  by_cases hinfo : env.sameInfoOk = true
  · simp only [hinfo, if_true] at h
    rcases d with ⟨⟨du, dg, dm⟩, dc⟩
    rcases stage with ⟨⟨su, sg, sm⟩, sc⟩
    simp only [Except.ok.injEq, Bool.and_eq_true, decide_eq_true_eq] at h
    simp only [File.mk.injEq, FileMeta.mk.injEq]
    exact ⟨⟨h.1.1.1, h.1.1.2, h.1.2⟩, h.2⟩
  · rw [Bool.not_eq_true] at hinfo
    rw [hinfo] at h
    simp at h

/-- Helper: eta law for the filesystem record. -/
theorem fs_eta (fs : FS) : fs = { dest := fs.dest } := rfl

/-- Helper: a true `IsSameConfig` pins down the whole filesystem. -/
theorem isSameConfig_fs_true (env : RenderEnv) (stage : File) (fs : FS)
    (h : isSameConfig env stage fs = .ok true) :
    fs = { dest := some stage } := by
  match hd : fs.dest with
  | none =>
    rw [fs_eta fs, hd] at h
    unfold isSameConfig at h
    simp at h
  | some d =>
    rw [fs_eta fs, hd] at h ⊢
    rw [isSameConfig_true_eq env stage d h]

/-- Helper: the expected mode is unchanged after the destination was
replaced by a staged file carrying that very mode. -/
theorem getExpectedFileMode_stable (t : TemplateConfig) (env : RenderEnv) (fs : FS)
    (m : Nat) (st : File)
    (hmode : getExpectedFileMode t env fs = .ok m)
    (hstat : env.statOk = true)
    (hst : st.meta.mode = m) :
    getExpectedFileMode t env { dest := some st } = .ok m := by
  unfold getExpectedFileMode at hmode ⊢
  by_cases hm : t.mode = ""
  · simp [hm, hstat, hst]
  · simp only [hm, if_false] at hmode ⊢
    exact hmode

/-- C3: render is idempotent with respect to the destination: a second
render with the same snapshot over the filesystem the first call left
behind compares staged and destination descriptors equal, performs no
write, and returns success as a no-op. -/
theorem render_idempotent
    (t : TemplateConfig) (env : RenderEnv) (keep : Bool)
    (kvs : List (String × String)) (fs : FS) (m : Nat)
    (hmode : getExpectedFileMode t env fs = .ok m)
    (hsrc : env.srcExists = true) (hcomp : env.compileOk = true)
    (htemp : env.tempCreateOk = true) (hexec : env.executeOk = true)
    (hchmod : env.chmodOk = true) (hchown : env.chownOk = true)
    (hstat : env.statOk = true) (hinfo : env.sameInfoOk = true)
    (hchk : t.checkCmd = "" ∨ env.checkOk = true)
    (hrel : t.reloadCmd = "" ∨ env.reloadOk = true)
    (hren : env.renameResult = RenameOutcome.renameOk) :
    (Render t env false keep kvs (Render t env false keep kvs fs).fs).result = .ok () ∧
    (Render t env false keep kvs (Render t env false keep kvs fs).fs).fs
      = (Render t env false keep kvs fs).fs ∧
    (Render t env false keep kvs (Render t env false keep kvs fs).fs).wrote = false ∧
    isSameConfig env (stagedFile t env m (setKVsPure t.pfx kvs))
      (Render t env false keep kvs fs).fs = .ok true := by
  have hred1 := Render_reduce t env keep kvs fs m hmode hsrc hcomp htemp hexec hchmod hchown
  have hcases : isSameConfig env (stagedFile t env m (setKVsPure t.pfx kvs)) fs = .ok true ∨
      isSameConfig env (stagedFile t env m (setKVsPure t.pfx kvs)) fs = .ok false := by
    unfold isSameConfig
    match fs.dest with
    | none => exact Or.inr rfl
    | some d =>
      simp only [hinfo, if_true]
      cases (decide (d.meta.uid = (stagedFile t env m (setKVsPure t.pfx kvs)).meta.uid) &&
          decide (d.meta.gid = (stagedFile t env m (setKVsPure t.pfx kvs)).meta.gid) &&
          decide (d.meta.mode = (stagedFile t env m (setKVsPure t.pfx kvs)).meta.mode) &&
          decide (d.content = (stagedFile t env m (setKVsPure t.pfx kvs)).content))
      · exact Or.inr rfl
      · exact Or.inl rfl
  have hfs1 : (Render t env false keep kvs fs).fs =
      { dest := some (stagedFile t env m (setKVsPure t.pfx kvs)) } := by
    rw [hred1]
    rcases hcases with hsc | hsc
    · rw [syncStep_same t env _ m fs hsc]
      exact isSameConfig_fs_true env _ fs hsc
    · rw [syncStep_diff_renameOk t env _ m fs hsc hchk hrel hren]
  have hmode2 : getExpectedFileMode t env
      { dest := some (stagedFile t env m (setKVsPure t.pfx kvs)) } = .ok m :=
    getExpectedFileMode_stable t env fs m _ hmode hstat rfl
  have hsame2 : isSameConfig env (stagedFile t env m (setKVsPure t.pfx kvs))
      { dest := some (stagedFile t env m (setKVsPure t.pfx kvs)) } = .ok true := by
    unfold isSameConfig
    simp [hinfo]
  have hred2 := Render_reduce t env keep kvs
    { dest := some (stagedFile t env m (setKVsPure t.pfx kvs)) } m hmode2
    hsrc hcomp htemp hexec hchmod hchown
  rw [hfs1, hred2, syncStep_same t env _ m _ hsame2]
  exact ⟨rfl, rfl, rfl, hsame2⟩

/-- Closed witness for C3 at a concrete template, environment,
snapshot and pre-existing destination. -/
theorem render_idempotent_witness :
    (Render tcInherit envAllOk false false [("/foo", "1")]
      (Render tcInherit envAllOk false false [("/foo", "1")] fsDest640).fs).result = .ok () ∧
    (Render tcInherit envAllOk false false [("/foo", "1")]
      (Render tcInherit envAllOk false false [("/foo", "1")] fsDest640).fs).fs
      = (Render tcInherit envAllOk false false [("/foo", "1")] fsDest640).fs ∧
    (Render tcInherit envAllOk false false [("/foo", "1")]
      (Render tcInherit envAllOk false false [("/foo", "1")] fsDest640).fs).wrote = false ∧
    isSameConfig envAllOk
      (stagedFile tcInherit envAllOk 416 (setKVsPure tcInherit.pfx [("/foo", "1")]))
      (Render tcInherit envAllOk false false [("/foo", "1")] fsDest640).fs = .ok true :=
  render_idempotent tcInherit envAllOk false [("/foo", "1")] fsDest640 416
    rfl rfl rfl rfl rfl rfl rfl rfl rfl (Or.inl rfl) (Or.inl rfl) rfl

/-! ## Interval processor theorems -/

/-- Helper: no interval step sets `doneClosed` — the loop body contains
no `return` and the `defer close(p.doneChan)` only runs if `Run`
returns. -/
theorem intervalStep_done (pf : Nat → Bool) (g : IntervalSig) (s : IntervalState) :
    (intervalStep pf g s).doneClosed = s.doneClosed := by
  unfold intervalStep
  by_cases h : s.atSelect <;> cases g <;> simp [h]

/-- Helper: `doneClosed` is invariant across any schedule. -/
theorem intervalFoldl_done (pf : Nat → Bool) (sigs : List IntervalSig) :
    ∀ s : IntervalState,
      (sigs.foldl (fun s g => intervalStep pf g s) s).doneClosed = s.doneClosed := by
  induction sigs with
  | nil => intro s; rfl
  | cons g gs ih =>
    intro s
    rw [List.foldl_cons, ih (intervalStep pf g s), intervalStep_done]

/-- C4: `IntervalProcessor.Run` never releases its done signal under
any schedule of select outcomes, because the `break` in the stop arm
exits only the `select` statement: from the `select`, the stop arm
returns control to executing the wrapped processor instead of
terminating the loop. -/
theorem interval_stop_never_terminates
    (pf : Nat → Bool) (sigs : List IntervalSig) :
    (intervalRun pf sigs).doneClosed = false ∧
    (∀ s : IntervalState, s.atSelect = true →
      (intervalStep pf IntervalSig.stopReady s).atSelect = false ∧
      (intervalStep pf IntervalSig.stopReady s).doneClosed = s.doneClosed) := by
  constructor
  · unfold intervalRun
    rw [intervalFoldl_done]
    rfl
  · intro s hs
    unfold intervalStep
    simp [hs]

/-- Closed witness for C4: a run in which the timer fires, then the
stop signal fires; the loop is back at the wrapped-processor step and
the done signal is unreleased. -/
theorem interval_stop_never_terminates_witness :
    (intervalRun (fun _ => false) [IntervalSig.timerFired, IntervalSig.stopReady]).doneClosed
      = false ∧
    (intervalStep (fun _ => false) IntervalSig.stopReady
      { atSelect := true, runCount := 1, errCount := 0, doneClosed := false }).atSelect
      = false ∧
    (intervalStep (fun _ => false) IntervalSig.stopReady
      { atSelect := true, runCount := 1, errCount := 0, doneClosed := false }).doneClosed
      = false := by
  obtain ⟨h1, h2⟩ := interval_stop_never_terminates (fun _ => false)
    [IntervalSig.timerFired, IntervalSig.stopReady]
  obtain ⟨h3, h4⟩ := h2 { atSelect := true, runCount := 1, errCount := 0, doneClosed := false } rfl
  exact ⟨h1, h3, h4⟩

/-! ## Watch processor theorems -/

/-- Helper: no watch step sets `doneClosed`. -/
theorem watchStep_done (i : WatchIn) (s : WatchState) :
    (watchStep i s).doneClosed = s.doneClosed := by
  unfold watchStep
  cases hp : s.phase <;> cases i <;> simp

/-- Helper: `doneClosed` is invariant across any watch schedule. -/
theorem watchFoldl_done (inps : List WatchIn) :
    ∀ s : WatchState,
      (inps.foldl (fun st i => watchStep i st) s).doneClosed = s.doneClosed := by
  induction inps with
  | nil => intro s; rfl
  | cons i is ih =>
    intro s
    rw [List.foldl_cons, ih (watchStep i s), watchStep_done]

/-- Helper: the receiving phase is absorbing. -/
theorem watchFoldl_receiving (inps : List WatchIn) :
    ∀ s : WatchState, s.phase = WatchPhase.receiving →
      (inps.foldl (fun st i => watchStep i st) s).phase = WatchPhase.receiving := by
  induction inps with
  | nil => intro s h; exact h
  | cons i is ih =>
    intro s h
    rw [List.foldl_cons]
    refine ih _ ?_
    unfold watchStep
    rw [h]
    cases i <;> simp [h]

/-- Helper: `n` consecutive subscription failures add `n` forwarded
errors and `n` backoff sleeps, returning to the subscribe step. -/
theorem watch_failTrace_lemma :
    ∀ (n e sl : Nat) (r : List (List (String × String))) (d : Bool),
      ((failTrace n).foldl (fun st i => watchStep i st)
        { phase := WatchPhase.subscribing, errCount := e, sleepCount := sl,
          renders := r, doneClosed := d }) =
      { phase := WatchPhase.subscribing, errCount := e + n, sleepCount := sl + n,
        renders := r, doneClosed := d } := by
  intro n
  induction n with
  | zero => intro e sl r d; simp [failTrace]
  | succ n ih =>
    intro e sl r d
    have hft : failTrace (n + 1) = failTrace n ++ [WatchIn.subFail, WatchIn.subFail] := by
      simp [failTrace, List.replicate_succ']
    rw [hft, List.foldl_append, ih]
    rfl

/-- C5 counterexample: no schedule of oracle inputs — including those a
closed stop channel can induce (a failing `WatchTree` call or a closed
events channel) — ever makes `WatchProcessor.Run` release its done
signal: the watch loop never ends, with or without the stop signal. -/
theorem watch_stop_never_ends_loop_counterexample :
    ¬ ∃ inps : List WatchIn, (watchRun inps).doneClosed = true := by
  rintro ⟨inps, h⟩
  rw [watchRun, watchFoldl_done] at h
  exact Bool.false_ne_true h

/-- C5 (amended): each failure to establish the subscription forwards
one error on the error channel and performs one fixed backoff sleep,
then re-subscribes; `n` consecutive failures forward `n` errors with
`n` backoff pauses and never terminate the loop — though the loop in
fact never terminates at all, the stop signal included, since it never
observes it. -/
theorem watch_subscription_failure_backoff (n : Nat) :
    (watchRun (failTrace n)).phase = WatchPhase.subscribing ∧
    (watchRun (failTrace n)).errCount = n ∧
    (watchRun (failTrace n)).sleepCount = n ∧
    (watchRun (failTrace n)).renders = [] ∧
    (watchRun (failTrace n)).doneClosed = false := by
  have h := watch_failTrace_lemma n 0 0 [] false
  rw [watchRun, watchInit]
  rw [h]
  simp

/-- Helper: with the events channel closed, each receive step appends
one empty rendered snapshot and stays in the receive loop. -/
theorem watch_recvClosed_lemma :
    ∀ (n e sl : Nat) (r : List (List (String × String))) (d : Bool),
      ((List.replicate n WatchIn.recvClosed).foldl (fun st i => watchStep i st)
        { phase := WatchPhase.receiving, errCount := e, sleepCount := sl,
          renders := r, doneClosed := d }) =
      { phase := WatchPhase.receiving, errCount := e, sleepCount := sl,
        renders := r ++ List.replicate n ([] : List (String × String)),
        doneClosed := d } := by
  intro n
  induction n with
  | zero => intro e sl r d; simp
  | succ n ih =>
    intro e sl r d
    rw [List.replicate_succ, List.foldl_cons]
    have h1 : watchStep WatchIn.recvClosed
        { phase := WatchPhase.receiving, errCount := e, sleepCount := sl,
          renders := r, doneClosed := d } =
        { phase := WatchPhase.receiving, errCount := e, sleepCount := sl,
          renders := r ++ [[]], doneClosed := d } := rfl
    rw [h1, ih]
    simp [List.replicate_succ]

/-- C10: after a successful subscription the inner receive loop of
`WatchProcessor.Run` never exits — it neither observes the stop signal
nor returns to the outer loop to re-subscribe, under any further
inputs — and when the store client closes the events channel each
receive yields the zero value, rendering the empty snapshot
(`mapKVPairs` of no pairs); the done signal is never released. -/
theorem watch_inner_loop_never_exits :
    (∀ (inps : List WatchIn) (s : WatchState), s.phase = WatchPhase.receiving →
      (inps.foldl (fun st i => watchStep i st) s).phase = WatchPhase.receiving ∧
      (inps.foldl (fun st i => watchStep i st) s).doneClosed = s.doneClosed) ∧
    (∀ n : Nat,
      (watchRun (WatchIn.subOk :: List.replicate n WatchIn.recvClosed)).phase
        = WatchPhase.receiving ∧
      (watchRun (WatchIn.subOk :: List.replicate n WatchIn.recvClosed)).renders
        = List.replicate n ([] : List (String × String)) ∧
      (watchRun (WatchIn.subOk :: List.replicate n WatchIn.recvClosed)).doneClosed
        = false) ∧
    mapKVPairs [] = [] := by
  refine ⟨?_, ?_, rfl⟩
  · intro inps s h
    exact ⟨watchFoldl_receiving inps s h, watchFoldl_done inps s⟩
  · intro n
    have h1 : watchStep WatchIn.subOk watchInit =
        { phase := WatchPhase.receiving, errCount := 0, sleepCount := 0,
          renders := [], doneClosed := false } := rfl
    rw [watchRun, List.foldl_cons, h1, watch_recvClosed_lemma]
    simp

/-- Closed witness for C10: three closed-channel receives after a
successful subscription. -/
theorem watch_inner_loop_never_exits_witness :
    (([WatchIn.recvClosed, WatchIn.subFail].foldl (fun st i => watchStep i st)
      { phase := WatchPhase.receiving, errCount := 0, sleepCount := 0,
        renders := [], doneClosed := false }).phase = WatchPhase.receiving ∧
     ([WatchIn.recvClosed, WatchIn.subFail].foldl (fun st i => watchStep i st)
      { phase := WatchPhase.receiving, errCount := 0, sleepCount := 0,
        renders := [], doneClosed := false }).doneClosed = false) ∧
    ((watchRun (WatchIn.subOk :: List.replicate 3 WatchIn.recvClosed)).phase
        = WatchPhase.receiving ∧
     (watchRun (WatchIn.subOk :: List.replicate 3 WatchIn.recvClosed)).renders
        = List.replicate 3 ([] : List (String × String)) ∧
     (watchRun (WatchIn.subOk :: List.replicate 3 WatchIn.recvClosed)).doneClosed
        = false) ∧
    mapKVPairs [] = [] := by
  obtain ⟨h1, h2, h3⟩ := watch_inner_loop_never_exits
  exact ⟨h1 [WatchIn.recvClosed, WatchIn.subFail] _ rfl, h2 3, h3⟩

/-! ## Coordinator theorems -/

/-- Helper: no coordinator event ever closes the stop channel (nothing
in `Run` closes it; it is receive-only and cannot be closed). -/
theorem coStep_stop (e : CoEvent) (s : CoState) :
    (coStep e s).stopClosed = s.stopClosed := by
  unfold coStep
  by_cases h : (s.exitCode.isSome || s.panicked) = true
  · simp [h]
  · cases e <;> by_cases hd : s.doneClosed = true <;> simp [h, hd]

/-- Helper: `stopClosed` is invariant across any event schedule. -/
theorem coFoldl_stop (evs : List CoEvent) :
    ∀ s : CoState, (evs.foldl (fun s e => coStep e s) s).stopClosed = s.stopClosed := by
  induction evs with
  | nil => intro s; rfl
  | cons e es ih =>
    intro s
    rw [List.foldl_cons, ih (coStep e s), coStep_stop]

/-- Helper: `n` buffered errors are logged one per iteration, changing
nothing else. -/
theorem coErrs_lemma :
    ∀ (n el : Nat),
      ((List.replicate n CoEvent.errRecv).foldl (fun s e => coStep e s)
        { stopClosed := false, doneClosed := false, errLogged := el,
          exitCode := none, panicked := false }) =
      { stopClosed := false, doneClosed := false, errLogged := el + n,
        exitCode := none, panicked := false } := by
  intro n
  induction n with
  | zero => intro el; simp
  | succ n ih =>
    intro el
    rw [List.replicate_succ, List.foldl_cons]
    have h1 : coStep CoEvent.errRecv
        { stopClosed := false, doneClosed := false, errLogged := el,
          exitCode := none, panicked := false } =
        { stopClosed := false, doneClosed := false, errLogged := el + 1,
          exitCode := none, panicked := false } := rfl
    rw [h1, ih]
    simp only [CoState.mk.injEq, true_and, and_true]
    omega

/-- C6 counterexample: on a captured termination signal the coordinator
exits 0 on the very next loop iteration while the shared stop channel
was never closed — the processors observe nothing and have not released
their done signals (see the processor theorems: they never do). -/
theorem coordinator_stop_signal_counterexample :
    (coRun [CoEvent.sigRecv, CoEvent.doneRecv]).exitCode = some 0 ∧
    (coRun [CoEvent.sigRecv, CoEvent.doneRecv]).stopClosed = false ∧
    (coRun [CoEvent.sigRecv, CoEvent.doneRecv]).doneClosed = true :=
  ⟨rfl, rfl, rfl⟩

/-- C6 (amended): the stop channel is never closed under any event
schedule; a captured signal instead executes `close(doneChan)`, and the
next iteration receives from the closed done channel and exits 0 —
after logging any number of buffered errors first — without any
processor having observed a stop or released its done signal. -/
theorem coordinator_signal_closes_done_and_exits (n : Nat) :
    (∀ evs : List CoEvent, (coRun evs).stopClosed = false) ∧
    (coRun (List.replicate n CoEvent.errRecv ++ [CoEvent.sigRecv, CoEvent.doneRecv])).exitCode
      = some 0 ∧
    (coRun (List.replicate n CoEvent.errRecv ++ [CoEvent.sigRecv, CoEvent.doneRecv])).doneClosed
      = true ∧
    (coRun (List.replicate n CoEvent.errRecv ++ [CoEvent.sigRecv, CoEvent.doneRecv])).errLogged
      = n ∧
    (coRun (List.replicate n CoEvent.errRecv ++ [CoEvent.sigRecv, CoEvent.doneRecv])).stopClosed
      = false := by
  have hbase : coRun (List.replicate n CoEvent.errRecv ++ [CoEvent.sigRecv, CoEvent.doneRecv]) =
      { stopClosed := false, doneClosed := true, errLogged := n,
        exitCode := some 0, panicked := false } := by
    rw [coRun, List.foldl_append]
    rw [show coInit = { stopClosed := false, doneClosed := false, errLogged := 0, exitCode := none, panicked := false } from rfl]
    rw [coErrs_lemma]
    simp [coStep]
  refine ⟨?_, ?_, ?_, ?_, ?_⟩
  · intro evs
    rw [coRun, coFoldl_stop]
    rfl
  · rw [hbase]
  · rw [hbase]
  · rw [hbase]
  · rw [hbase]


/-! ## Mutual exclusion of concurrent renders -/

/-- Helper: one step of either thread preserves the interleaving
invariant. -/
theorem lockInv_step (ctx : RenderCtx) (t : Bool) (s : LockState)
    (h : LockInv ctx s) : LockInv ctx (renderStep ctx t s) := by
  obtain ⟨h1, h2, h3, h4, h5, h6, h7, h8, h9⟩ := h
  cases t
  case false =>
    unfold renderStep
    simp only [pcOf, cond_false, setPc, setTemp, if_false, Bool.false_eq_true, ite_false]
    split_ifs with hp0 hl hp1 hp2 hp3 hp4
    · -- acquire
      have hnc1 : ¬ (1 ≤ s.pc1 ∧ s.pc1 ≤ 4) := fun hc => by
        have hx := h2.mpr hc
        rw [hl] at hx
        exact Option.noConfusion hx
      refine ⟨by simp, ?_, ?_, ?_, ?_, ?_, h7, ?_, h9⟩
      · constructor
        · intro hx
          exact absurd hx (by simp)
        · intro hc
          exact absurd hc hnc1
      · intro _ hx
        simp at hx
      · intro hx
        exact absurd hx (by simp)
      · intro _ hx
        simp at hx
      · intro hx
        exact absurd hx (by simp)
      · intro hx
        simp at hx
    · -- blocked acquire
      exact ⟨h1, h2, h3, h4, h5, h6, h7, h8, h9⟩
    · -- purge
      have hlock : s.lock = some false := h1.mpr ⟨by omega, by omega⟩
      refine ⟨by simp [hlock], h2, ?_, ?_, ?_, ?_, h7, ?_, h9⟩
      · intro _ hx
        simp at hx
      · intro hx
        rw [hlock] at hx
        exact absurd hx (by simp)
      · intro _ hx
        simp at hx
      · intro hx
        rw [hlock] at hx
        exact absurd hx (by simp)
      · intro hx
        simp at hx
    · -- populate store
      have hlock : s.lock = some false := h1.mpr ⟨by omega, by omega⟩
      refine ⟨by simp [hlock], h2, ?_, ?_, ?_, ?_, h7, ?_, h9⟩
      · intro _ _
        rfl
      · intro hx
        rw [hlock] at hx
        exact absurd hx (by simp)
      · intro _ hx
        simp at hx
      · intro hx
        rw [hlock] at hx
        exact absurd hx (by simp)
      · intro hx
        simp at hx
    · -- execute template
      have hlock : s.lock = some false := h1.mpr ⟨by omega, by omega⟩
      have hstore : s.kvstore = setKVsPure ctx.pfx ctx.kvs0 := h3 hlock hp3
      refine ⟨by simp [hlock], h2, ?_, ?_, ?_, ?_, h7, ?_, h9⟩
      · intro _ hx
        simp at hx
      · intro hx
        rw [hlock] at hx
        exact absurd hx (by simp)
      · intro _ _
        rw [hstore]
        rfl
      · intro hx
        rw [hlock] at hx
        exact absurd hx (by simp)
      · intro hx
        simp at hx
    · -- replace destination, release lock
      have hlock : s.lock = some false := h1.mpr ⟨by omega, by omega⟩
      have htemp : s.temp0 = some (renderOf ctx false) := h5 hlock hp4
      have hnc1 : ¬ (1 ≤ s.pc1 ∧ s.pc1 ≤ 4) := fun hc => by
        have hx := h2.mpr hc
        rw [hlock] at hx
        exact absurd hx (by simp)
      refine ⟨by simp, ?_, ?_, ?_, ?_, ?_, ?_, ?_, ?_⟩
      · constructor
        · intro hx
          exact absurd hx (by simp)
        · intro hc
          exact absurd hc hnc1
      · intro hx
        exact absurd hx (by simp)
      · intro hx
        exact absurd hx (by simp)
      · intro hx
        exact absurd hx (by simp)
      · intro hx
        exact absurd hx (by simp)
      · exact htemp
      · intro _
        simp
      · intro _
        simp
    · -- done
      exact ⟨h1, h2, h3, h4, h5, h6, h7, h8, h9⟩
  case true =>
    unfold renderStep
    simp only [pcOf, cond_true, setPc, setTemp, if_true, ite_true]
    split_ifs with hp0 hl hp1 hp2 hp3 hp4
    · -- acquire
      have hnc0 : ¬ (1 ≤ s.pc0 ∧ s.pc0 ≤ 4) := fun hc => by
        have hx := h1.mpr hc
        rw [hl] at hx
        exact Option.noConfusion hx
      refine ⟨?_, by simp, ?_, ?_, ?_, ?_, h7, h8, ?_⟩
      · constructor
        · intro hx
          exact absurd hx (by simp)
        · intro hc
          exact absurd hc hnc0
      · intro hx
        exact absurd hx (by simp)
      · intro _ hx
        simp at hx
      · intro hx
        exact absurd hx (by simp)
      · intro _ hx
        simp at hx
      · intro hx
        simp at hx
    · -- blocked acquire
      exact ⟨h1, h2, h3, h4, h5, h6, h7, h8, h9⟩
    · -- purge
      have hlock : s.lock = some true := h2.mpr ⟨by omega, by omega⟩
      refine ⟨h1, by simp [hlock], ?_, ?_, ?_, ?_, h7, h8, ?_⟩
      · intro hx
        rw [hlock] at hx
        exact absurd hx (by simp)
      · intro _ hx
        simp at hx
      · intro hx
        rw [hlock] at hx
        exact absurd hx (by simp)
      · intro _ hx
        simp at hx
      · intro hx
        simp at hx
    · -- populate store
      have hlock : s.lock = some true := h2.mpr ⟨by omega, by omega⟩
      refine ⟨h1, by simp [hlock], ?_, ?_, ?_, ?_, h7, h8, ?_⟩
      · intro hx
        rw [hlock] at hx
        exact absurd hx (by simp)
      · intro _ _
        rfl
      · intro hx
        rw [hlock] at hx
        exact absurd hx (by simp)
      · intro _ hx
        simp at hx
      · intro hx
        simp at hx
    · -- execute template
      have hlock : s.lock = some true := h2.mpr ⟨by omega, by omega⟩
      have hstore : s.kvstore = setKVsPure ctx.pfx ctx.kvs1 := h4 hlock hp3
      refine ⟨h1, by simp [hlock], ?_, ?_, ?_, ?_, h7, h8, ?_⟩
      · intro hx
        rw [hlock] at hx
        exact absurd hx (by simp)
      · intro _ hx
        simp at hx
      · intro hx
        rw [hlock] at hx
        exact absurd hx (by simp)
      · intro _ _
        rw [hstore]
        rfl
      · intro hx
        simp at hx
    · -- replace destination, release lock
      have hlock : s.lock = some true := h2.mpr ⟨by omega, by omega⟩
      have htemp : s.temp1 = some (renderOf ctx true) := h6 hlock hp4
      have hnc0 : ¬ (1 ≤ s.pc0 ∧ s.pc0 ≤ 4) := fun hc => by
        have hx := h1.mpr hc
        rw [hlock] at hx
        exact absurd hx (by simp)
      refine ⟨?_, by simp, ?_, ?_, ?_, ?_, ?_, ?_, ?_⟩
      · constructor
        · intro hx
          exact absurd hx (by simp)
        · intro hc
          exact absurd hc hnc0
      · intro hx
        exact absurd hx (by simp)
      · intro hx
        exact absurd hx (by simp)
      · intro hx
        exact absurd hx (by simp)
      · intro hx
        exact absurd hx (by simp)
      · exact htemp
      · intro _
        simp
      · intro _
        simp
    · -- done
      exact ⟨h1, h2, h3, h4, h5, h6, h7, h8, h9⟩

/-- Helper: the initial state satisfies the interleaving invariant. -/
theorem lockInv_init (ctx : RenderCtx) : LockInv ctx lockInit := by
  unfold LockInv lockInit
  refine ⟨by simp, by simp, by simp, by simp, by simp, by simp, rfl, by simp, by simp⟩

/-- Helper: every reachable state of the two concurrent renders
satisfies the invariant. -/
theorem lockInv_run (ctx : RenderCtx) (tr : List Bool) :
    LockInv ctx (lockRun ctx tr) := by
  unfold lockRun
  have h : ∀ s, LockInv ctx s → LockInv ctx (tr.foldl (fun s t => renderStep ctx t s) s) := by
    induction tr with
    | nil => intro s hs; exact hs
    | cons a tl ih =>
      intro s hs
      rw [List.foldl_cons]
      exact ih _ (lockInv_step ctx a s hs)
  exact h lockInit (lockInv_init ctx)

/-- C1: two concurrent `Render` calls on one `Template` never
interleave — under no schedule are both threads inside the render body
at once — and once both complete the destination holds the complete
render of one thread's snapshot (the one that wrote last), never a mix
of the two. -/
theorem render_mutual_exclusion (ctx : RenderCtx) (tr : List Bool) :
    ¬ (inCrit false (lockRun ctx tr) ∧ inCrit true (lockRun ctx tr)) ∧
    ((lockRun ctx tr).pc0 = 5 → (lockRun ctx tr).pc1 = 5 →
      ∃ w : Bool, (lockRun ctx tr).lastWriter = some w ∧
        (lockRun ctx tr).destContent = some (renderOf ctx w)) := by
  obtain ⟨h1, h2, h3, h4, h5, h6, h7, h8, h9⟩ := lockInv_run ctx tr
  constructor
  · rintro ⟨hc0, hc1⟩
    unfold inCrit pcOf at hc0 hc1
    simp only [cond_false, cond_true] at hc0 hc1
    have l0 := h1.mpr hc0
    have l1 := h2.mpr hc1
    rw [l0] at l1
    exact absurd l1 (by simp)
  · intro hp0 hp1
    have hw := h8 hp0
    cases hlw : (lockRun ctx tr).lastWriter with
    | none => exact absurd hlw hw
    | some w =>
      refine ⟨w, rfl, ?_⟩
      rw [h7, hlw]
      rfl

/-- Closed witness for C1: a concrete context and schedule under which
both renders complete. -/
theorem render_mutual_exclusion_witness :
    ¬ (inCrit false (lockRun ctx0 tr0) ∧ inCrit true (lockRun ctx0 tr0)) ∧
    ∃ w : Bool, (lockRun ctx0 tr0).lastWriter = some w ∧
      (lockRun ctx0 tr0).destContent = some (renderOf ctx0 w) := by
  obtain ⟨hm, hd⟩ := render_mutual_exclusion ctx0 tr0
  exact ⟨hm, hd rfl rfl⟩

end Renderizr
